import Mathlib

/-!
Verification development for the swift-backend event-ticketing service.

The definitions below are shallow embeddings of the JavaScript source:

* `reserveTickets` / `releaseTickets` — instance methods of the event
  schema (event model): per-tier inventory counters.
* `scanTicket` — the QR-scan handler of the ticket controller, and a
  two-session interleaving machine for its read/update phases.
* `activationWorkerRun` — the ticket-activation job worker.
* `createCheckout` / `initiatePayment` — the checkout controller.
* `validateCallback` / `callbackRoute` — the M-Pesa payment callback
  service and its HTTP route.
* `payoutCheckAndCreate` / `payoutFinalize` — the payout job worker.

Monetary amounts are modelled as exact rationals (JS numbers),
timestamps as integers (milliseconds since epoch), thrown JS errors as
`Except` values.
-/

/-- Status enumeration of the ticket schema. -/
inductive TicketStatus where
  | not_active
  | valid
  | already_used
  | invalid
  | cancelled
deriving Repr, DecidableEq

/-- Payment status enumeration of the order schema. -/
inductive PayStatus where
  | pending
  | processing
  | completed
  | failed
  | refunded
deriving Repr, DecidableEq

/-- Status enumeration of the event schema. -/
inductive EventStatus where
  | draft
  | published
  | cancelled
  | completed
deriving Repr, DecidableEq

/-- Status enumeration of the payout schema. -/
inductive PayoutStatus where
  | pending
  | processing
  | completed
  | failed
  | cancelled
deriving Repr, DecidableEq

/-- One pricing tier of an event (subdocument of the event schema):
`name`, `price`, `quantityAvailable` (the tier capacity) and
`quantitySold`. -/
structure Tier where
  name : String
  price : ℚ
  quantityAvailable : ℤ
  quantitySold : ℤ
deriving Repr, DecidableEq

/-- The slice of an event document that the inventory, checkout and
scan logic reads and writes. -/
structure EventDoc where
  tiers : List Tier
  ticketsSold : ℤ
  eventDateTime : ℤ
  status : EventStatus
deriving Repr, DecidableEq

/-- Inventory errors thrown by `reserveTickets` / `releaseTickets`
(`Tier not found` and `Only N tickets available`). -/
inductive InvErr where
  | tierNotFound
  | insufficient (available : ℤ)
deriving Repr, DecidableEq

/-- Mutation of the first tier with a matching name, as
`this.tiers.find(t => t.name === tierName)` mutates the first match
in place. -/
def updateFirstTier : List Tier → String → (Tier → Tier) → List Tier
  | [], _, _ => []
  | t :: rest, n, f =>
    if t.name == n then f t :: rest else t :: updateFirstTier rest n f

/-- Embedding of `eventSchema.methods.reserveTickets`: find the tier,
compute `available = quantityAvailable - quantitySold`, throw if
`available < quantity`, otherwise add `quantity` to the tier's
`quantitySold` and to the event's `ticketsSold`. -/
def reserveTickets (e : EventDoc) (tierName : String) (quantity : ℤ) :
    Except InvErr EventDoc :=
  match e.tiers.find? (fun t => t.name == tierName) with
  | none => .error .tierNotFound
  | some tier =>
    let available := tier.quantityAvailable - tier.quantitySold
    if available < quantity then
      .error (.insufficient available)
    else
      .ok { e with
        tiers := updateFirstTier e.tiers tierName
          (fun t => { t with quantitySold := t.quantitySold + quantity }),
        ticketsSold := e.ticketsSold + quantity }

/-- Embedding of `eventSchema.methods.releaseTickets`: find the tier,
set its `quantitySold` to `Math.max(0, quantitySold - quantity)` and
the event's `ticketsSold` to `Math.max(0, ticketsSold - quantity)`. -/
def releaseTickets (e : EventDoc) (tierName : String) (quantity : ℤ) :
    Except InvErr EventDoc :=
  match e.tiers.find? (fun t => t.name == tierName) with
  | none => .error .tierNotFound
  | some _ =>
    .ok { e with
      tiers := updateFirstTier e.tiers tierName
        (fun t => { t with quantitySold := max 0 (t.quantitySold - quantity) }),
      ticketsSold := max 0 (e.ticketsSold - quantity) }

/-- Per-tier counter invariant: `0 ≤ quantitySold ≤ quantityAvailable`. -/
def TierInv (t : Tier) : Prop :=
  0 ≤ t.quantitySold ∧ t.quantitySold ≤ t.quantityAvailable

/-- All tiers of an event satisfy the counter invariant. -/
def TiersInv (e : EventDoc) : Prop :=
  ∀ t ∈ e.tiers, TierInv t

instance (t : Tier) : Decidable (TierInv t) := by
  unfold TierInv; infer_instance

instance (e : EventDoc) : Decidable (TiersInv e) := by
  unfold TiersInv; infer_instance

/-- A concrete event used in witnesses and counterexamples: one tier
named VIP with capacity 10 of which 5 are sold. -/
def sampleEvent : EventDoc :=
  { tiers := [{ name := "VIP", price := 100, quantityAvailable := 10,
                quantitySold := 5 }],
    ticketsSold := 5,
    eventDateTime := 1000000000,
    status := .published }

instance exceptDecEq {ε α : Type} [DecidableEq ε] [DecidableEq α] :
    DecidableEq (Except ε α) := fun x y =>
  match x, y with
  | .ok a, .ok b => decidable_of_iff (a = b) (by simp)
  | .error a, .error b => decidable_of_iff (a = b) (by simp)
  | .ok _, .error _ => isFalse (fun h => Except.noConfusion h)
  | .error _, .ok _ => isFalse (fun h => Except.noConfusion h)

lemma updateFirstTier_inv (ts : List Tier) (n : String) (f : Tier → Tier)
    (h : ∀ t ∈ ts, TierInv t)
    (hf : ∀ t, ts.find? (fun u => u.name == n) = some t → TierInv t → TierInv (f t)) :
    ∀ u ∈ updateFirstTier ts n f, TierInv u := by
  induction ts with
  | nil => intro u hu; simp [updateFirstTier] at hu
  | cons t rest ih =>
    intro u hu
    by_cases hn : (t.name == n) = true
    · simp only [updateFirstTier, if_pos hn, List.mem_cons] at hu
      rcases hu with hu | hu
      · subst hu
        refine hf t ?_ (h t (List.mem_cons_self t rest))
        simp [List.find?, hn]
      · exact h u (List.mem_cons_of_mem t hu)
    · simp only [updateFirstTier, if_neg hn, List.mem_cons] at hu
      rcases hu with hu | hu
      · subst hu; exact h _ (List.mem_cons_self _ rest)
      · refine ih (fun v hv => h v (List.mem_cons_of_mem t hv)) ?_ u hu
        intro v hv hvi
        refine hf v ?_ hvi
        simp [List.find?, hn, hv]

/-- C2 (amended): every sequential `reserveTickets` or `releaseTickets`
call with a nonnegative quantity preserves the per-tier bounds
`0 ≤ quantitySold ≤ quantityAvailable`; `reserveTickets` commits only
when the quantity fits the remaining availability, so no sequence of
committed reservations pushes `quantitySold` past the capacity. -/
theorem inventory_bounds (e : EventDoc) (tierName : String) (q : ℤ)
    (e' : EventDoc) (hq : 0 ≤ q) (hinv : TiersInv e)
    (h : reserveTickets e tierName q = .ok e' ∨
         releaseTickets e tierName q = .ok e') :
    TiersInv e' := by
  rcases h with h | h
  · unfold reserveTickets at h
    cases hfind : e.tiers.find? (fun t => t.name == tierName) with
    | none => rw [hfind] at h; exact absurd h (by simp)
    | some tier =>
      rw [hfind] at h
      simp only at h
      by_cases hav : tier.quantityAvailable - tier.quantitySold < q
      · rw [if_pos hav] at h; exact absurd h (by simp)
      · rw [if_neg hav] at h
        injection h with h
        subst h
        intro u hu
        refine updateFirstTier_inv e.tiers tierName _ hinv ?_ u hu
        intro v hv hvinv
        rw [hfind] at hv
        injection hv with hv
        subst hv
        constructor
        · simpa using add_nonneg hvinv.1 hq
        · simp only
          omega
  · unfold releaseTickets at h
    cases hfind : e.tiers.find? (fun t => t.name == tierName) with
    | none => rw [hfind] at h; exact absurd h (by simp)
    | some tier =>
      rw [hfind] at h
      simp only at h
      injection h with h
      subst h
      intro u hu
      refine updateFirstTier_inv e.tiers tierName _ hinv ?_ u hu
      intro v hv hvinv
      constructor
      · simp only; omega
      · simp only
        rcases hvinv with ⟨h1, h2⟩
        omega

/-- Witness for `inventory_bounds`: reserving 2 VIP tickets on the
sample event keeps the counters inside their bounds. -/
theorem inventory_bounds_witness :
    TiersInv { tiers := [{ name := "VIP", price := 100,
                           quantityAvailable := 10, quantitySold := 7 }],
               ticketsSold := 7, eventDateTime := 1000000000,
               status := .published } :=
  inventory_bounds sampleEvent "VIP" 2 _ (by decide) (by decide)
    (Or.inl (by decide))

/-- Counterexample to C2 as stated: `quantitySold` does not only
increase — `releaseTickets` strictly decreases it (from 5 to 3 here),
because a released or failed reservation returns its units by
decrementing the same counter. -/
theorem sold_decreases_on_release :
    releaseTickets sampleEvent "VIP" 2 =
      .ok { tiers := [{ name := "VIP", price := 100,
                        quantityAvailable := 10, quantitySold := 3 }],
            ticketsSold := 3, eventDateTime := 1000000000,
            status := .published }
    ∧ sampleEvent.tiers.map Tier.quantitySold = [5]
    ∧ (3 : ℤ) < 5 := by
  refine ⟨by decide, by decide, by decide⟩

/-- The slice of a ticket document that the scan handler and the
activation worker read and write. -/
structure TicketDoc where
  status : TicketStatus
  scannedAt : Option ℤ
  scannedBy : Option ℕ
  activationTime : Option ℤ
deriving Repr, DecidableEq

/-- Four hours in milliseconds, the activation window
`4 * 60 * 60 * 1000` used by both the scan handler and the
activation worker. -/
def fourHoursMs : ℤ := 4 * 60 * 60 * 1000

/-- Activation instant computed by the scan handler
(`eventTime.getTime() - 4 * 60 * 60 * 1000` in the ticket
controller). -/
def scanActivationTime (eventDateTime : ℤ) : ℤ :=
  eventDateTime - fourHoursMs

/-- Activation instant computed by the activation worker
(`eventTime.getTime() - (4 * 60 * 60 * 1000)` in the activation
job). -/
def workerActivationTime (eventDateTime : ℤ) : ℤ :=
  eventDateTime - fourHoursMs

/-- HTTP responses of the scan endpoint. -/
inductive ScanResponse where
  | alreadyUsed (scannedAt : Option ℤ)
  | invalidOrCancelled (st : TicketStatus)
  | notYetActive (activationTime : ℤ) (currentTime : ℤ)
  | success (st : TicketStatus) (scannedAt : ℤ)
deriving Repr, DecidableEq

/-- The pure status checks the scan handler performs on the ticket it
read, in source order: `already_used`, then `invalid`/`cancelled`,
then the `not_active` activation-window check. Returns `none` when the
handler proceeds to mark the ticket used. -/
def scanCheck (t : TicketDoc) (eventDateTime now : ℤ) :
    Option ScanResponse :=
  if t.status = .already_used then
    some (.alreadyUsed t.scannedAt)
  else if t.status = .invalid ∨ t.status = .cancelled then
    some (.invalidOrCancelled t.status)
  else if t.status = .not_active ∧ now < scanActivationTime eventDateTime then
    some (.notYetActive (scanActivationTime eventDateTime) now)
  else
    none

/-- The unconditional `findByIdAndUpdate` the scan handler issues:
set status `already_used`, stamp `scannedAt` and `scannedBy`. The
update is keyed by id only, with no condition on the current status. -/
def scanWrite (db : TicketDoc) (now : ℤ) (scanner : ℕ) : TicketDoc :=
  { db with status := .already_used, scannedAt := some now,
            scannedBy := some scanner }

/-- Embedding of the scan handler `scanTicket` run in isolation: read
the ticket, run the status checks, and on pass apply the update and
answer success. Returns the HTTP response and the resulting ticket
document. -/
def scanTicket (db : TicketDoc) (eventDateTime now : ℤ) (scanner : ℕ) :
    ScanResponse × TicketDoc :=
  match scanCheck db eventDateTime now with
  | some rej => (rej, db)
  | none => (.success .already_used now, scanWrite db now scanner)

/-- Program counter of one in-flight scan request: it still has to
read the ticket, or it holds the snapshot it read and still has to run
the checks and the update, or it has answered. -/
inductive ScanPC where
  | toRead
  | toWrite (snap : TicketDoc)
  | answered (r : ScanResponse)
deriving Repr, DecidableEq

/-- Shared state of two concurrent scan requests against the same
ticket document. -/
structure ScanRace where
  db : TicketDoc
  p1 : ScanPC
  p2 : ScanPC
deriving Repr, DecidableEq

/-- One atomic step of a scan request against the shared ticket
document: the read takes a snapshot; the write runs the checks on the
snapshot and, on pass, applies the unconditional update to the shared
document. -/
def scanStep (db : TicketDoc) (pc : ScanPC) (eventDateTime now : ℤ)
    (scanner : ℕ) : TicketDoc × ScanPC :=
  match pc with
  | .toRead => (db, .toWrite db)
  | .toWrite snap =>
    match scanCheck snap eventDateTime now with
    | some rej => (db, .answered rej)
    | none => (scanWrite db now scanner, .answered (.success .already_used now))
  | .answered r => (db, .answered r)

/-- Run the two scan sessions under an explicit interleaving: `true`
steps the first session, `false` the second. -/
def runScanSchedule (st : ScanRace) (eventDateTime now : ℤ)
    (s1 s2 : ℕ) : List Bool → ScanRace
  | [] => st
  | b :: rest =>
    let st' :=
      if b then
        let (db', pc') := scanStep st.db st.p1 eventDateTime now s1
        { st with db := db', p1 := pc' }
      else
        let (db', pc') := scanStep st.db st.p2 eventDateTime now s2
        { st with db := db', p2 := pc' }
    runScanSchedule st' eventDateTime now s1 s2 rest

/-- A valid, unscanned ticket. -/
def validTicket : TicketDoc :=
  { status := .valid, scannedAt := none, scannedBy := none,
    activationTime := none }

/-- C1: evaluation of the scan handler at the failing interleaving.
Two scan requests on the same valid credential both read the ticket
before either update runs (schedule read-read-write-write): both
sessions answer success, because the status check happens on the
snapshot and the `findByIdAndUpdate` carries no condition on the
current status. Under the serialized schedule, by contrast, exactly
one succeeds and the other observes `already_used`. -/
theorem double_scan_both_succeed :
    (runScanSchedule { db := validTicket, p1 := .toRead, p2 := .toRead }
        1000000000 999000000 1 2 [true, false, true, false]).p1
      = .answered (.success .already_used 999000000)
    ∧ (runScanSchedule { db := validTicket, p1 := .toRead, p2 := .toRead }
        1000000000 999000000 1 2 [true, false, true, false]).p2
      = .answered (.success .already_used 999000000)
    ∧ (runScanSchedule { db := validTicket, p1 := .toRead, p2 := .toRead }
        1000000000 999000000 1 2 [true, true, false, false]).p1
      = .answered (.success .already_used 999000000)
    ∧ (runScanSchedule { db := validTicket, p1 := .toRead, p2 := .toRead }
        1000000000 999000000 1 2 [true, true, false, false]).p2
      = .answered (.alreadyUsed (some 999000000)) := by
  refine ⟨by decide, by decide, by decide, by decide⟩

/-- Embedding of the activation worker body for a loaded ticket and
its event: tickets no longer `not_active` are reported as already
handled; otherwise the worker activates when `now` has reached
`eventStart − 4h` and reschedules for that instant when not. -/
inductive WorkerOut where
  | alreadyStatus (st : TicketStatus)
  | activated
  | rescheduled (activationTime : ℤ)
deriving Repr, DecidableEq

/-- Activation worker run (ticket-activation job): guard on status,
compute `activationTime = eventStart − 4h`, activate if reached,
reschedule otherwise. -/
def activationWorkerRun (t : TicketDoc) (eventDateTime now : ℤ) :
    WorkerOut × TicketDoc :=
  if t.status ≠ .not_active then
    (.alreadyStatus t.status, t)
  else
    let act := workerActivationTime eventDateTime
    if act ≤ now then
      (.activated, { t with status := .valid, activationTime := some act })
    else
      (.rescheduled act, t)

/-- A freshly issued, not yet activated ticket. -/
def notActiveTicket : TicketDoc :=
  { status := .not_active, scannedAt := none, scannedBy := none,
    activationTime := none }

/-- C8: a scan of a `not_active` ticket strictly before
`eventStart − 4h` is rejected and the response carries the activation
instant; a scan at or after that instant auto-activates and succeeds;
the scan path and the activation worker compute the activation instant
by the same formula, and the worker activates exactly when that
instant has been reached. -/
theorem scan_activation_boundary (t : TicketDoc) (ev now : ℤ)
    (scanner : ℕ) (h : t.status = .not_active) :
    (now < scanActivationTime ev →
      scanTicket t ev now scanner
        = (.notYetActive (scanActivationTime ev) now, t))
    ∧ (scanActivationTime ev ≤ now →
      (scanTicket t ev now scanner).1 = .success .already_used now)
    ∧ scanActivationTime ev = workerActivationTime ev
    ∧ (workerActivationTime ev ≤ now →
      activationWorkerRun t ev now
        = (.activated, { t with status := .valid,
                                activationTime := some (workerActivationTime ev) }))
    ∧ (now < workerActivationTime ev →
      activationWorkerRun t ev now
        = (.rescheduled (workerActivationTime ev), t)) := by
  refine ⟨?_, ?_, rfl, ?_, ?_⟩
  · intro hlt
    simp [scanTicket, scanCheck, h, hlt]
  · intro hge
    simp [scanTicket, scanCheck, h, not_lt.mpr hge]
  · intro hge
    simp [activationWorkerRun, h, hge]
  · intro hlt
    simp [activationWorkerRun, h, not_le.mpr hlt]

/-- Witness for `scan_activation_boundary`: event at time 1000000000,
activation instant 985600000; a scan one minute earlier is rejected
with that instant, a scan one minute later succeeds, and the worker
activates one minute after the instant. -/
theorem scan_activation_boundary_witness :
    scanTicket notActiveTicket 1000000000 985540000 7
      = (.notYetActive (scanActivationTime 1000000000) 985540000,
         notActiveTicket)
    ∧ (scanTicket notActiveTicket 1000000000 985660000 7).1
      = .success .already_used 985660000
    ∧ scanActivationTime 1000000000 = workerActivationTime 1000000000
    ∧ activationWorkerRun notActiveTicket 1000000000 985660000
      = (.activated, { notActiveTicket with
                       status := .valid,
                       activationTime := some (workerActivationTime 1000000000) }) :=
  ⟨(scan_activation_boundary notActiveTicket 1000000000 985540000 7
      (by decide)).1 (by decide),
   (scan_activation_boundary notActiveTicket 1000000000 985660000 7
      (by decide)).2.1 (by decide),
   (scan_activation_boundary notActiveTicket 1000000000 985660000 7
      (by decide)).2.2.1,
   (scan_activation_boundary notActiveTicket 1000000000 985660000 7
      (by decide)).2.2.2.1 (by decide)⟩

/-- One line item of an order (`tickets` array of the order schema). -/
structure OrderLine where
  tierName : String
  quantity : ℤ
  unitPrice : ℚ
  totalPrice : ℚ
deriving Repr, DecidableEq

/-- The slice of an order document that checkout, payment initiation
and the payment callback read and write. -/
structure OrderDoc where
  id : ℕ
  orderNumber : String
  paymentStatus : PayStatus
  tickets : List OrderLine
  subtotal : ℚ
  platformFee : ℚ
  processingFee : ℚ
  totalAmount : ℚ
  hostAmount : ℚ
  platformAmount : ℚ
  checkoutRequestId : Option String
  mpesaReference : Option String
deriving Repr, DecidableEq

/-- Value cached in Redis under `mpesa:checkout:<id>` at payment
initiation: the order number and the expected amount. -/
structure MpesaEntry where
  orderNumber : String
  amount : ℚ
deriving Repr, DecidableEq

/-- Shared persistent state of the checkout and payment flow: the
event document with its tier counters, the order collection, the Redis
reservation keys (`reservation:<orderId>` mapped to their expiry
instant), the Redis `mpesa:checkout` entries, and the ticket
generation jobs enqueued so far (order numbers). Tickets are minted by
the generation worker one job per enqueue with no per-order guard, so
enqueued jobs stand for issued ticket batches. -/
structure SysState where
  eventDoc : EventDoc
  orders : List OrderDoc
  reservations : List (ℕ × ℤ)
  mpesaCheckout : List (String × MpesaEntry)
  ticketJobs : List String
deriving Repr, DecidableEq

/-- Lookup of an order by object id (`Order.findById`). -/
def findOrder (s : SysState) (oid : ℕ) : Option OrderDoc :=
  s.orders.find? (fun o => o.id == oid)

/-- Lookup of an order by order number (`Order.findOne({orderNumber})`). -/
def findOrderByNumber (s : SysState) (num : String) : Option OrderDoc :=
  s.orders.find? (fun o => o.orderNumber == num)

/-- First-match in-place update of an order, as `findOneAndUpdate`
updates the first matching document. -/
def updateFirstOrder : List OrderDoc → (OrderDoc → Bool) → (OrderDoc → OrderDoc) →
    List OrderDoc
  | [], _, _ => []
  | o :: rest, p, f =>
    if p o then f o :: rest else o :: updateFirstOrder rest p f

/-- Redis GET of a `reservation:<orderId>` key written with `EX 600`:
present only while `now` is before its expiry instant. -/
def reservationGet (s : SysState) (oid : ℕ) (now : ℤ) : Option ℤ :=
  match s.reservations.find? (fun p => p.1 == oid) with
  | some (_, exp) => if now < exp then some exp else none
  | none => none

/-- Redis GET of a `mpesa:checkout:<id>` key. -/
def mpesaGet (s : SysState) (key : String) : Option MpesaEntry :=
  (s.mpesaCheckout.find? (fun p => p.1 == key)).map Prod.snd

/-- Redis DEL of a `mpesa:checkout:<id>` key. -/
def mpesaDel (s : SysState) (key : String) : SysState :=
  { s with mpesaCheckout := s.mpesaCheckout.filter (fun p => !(p.1 == key)) }

/-- Errors thrown by `createCheckout`. -/
inductive CheckoutErr where
  | notPublished
  | tierNotFound (tierName : String)
  | insufficient (tierName : String) (available : ℤ)
deriving Repr, DecidableEq

/-- The availability-check loop of `createCheckout`: walk the
requested line items, find each tier, reject when
`available < quantity`, and accumulate the subtotal and the
`ticketDetails` entries. -/
def checkoutValidate (tiers : List Tier) :
    List (String × ℤ) → Except CheckoutErr (ℚ × List OrderLine)
  | [] => .ok (0, [])
  | (tn, q) :: rest =>
    match tiers.find? (fun t => t.name == tn) with
    | none => .error (.tierNotFound tn)
    | some tier =>
      let available := tier.quantityAvailable - tier.quantitySold
      if available < q then
        .error (.insufficient tn available)
      else
        match checkoutValidate tiers rest with
        | .error e => .error e
        | .ok (sub, details) =>
          .ok (tier.price * (q : ℚ) + sub,
               { tierName := tn, quantity := q, unitPrice := tier.price,
                 totalPrice := tier.price * (q : ℚ) } :: details)

/-- The order document `createCheckout` creates: fees as in the
controller — `platformFee = 5%`, `processingFee = 2%`,
`totalAmount = subtotal + processingFee`, `hostAmount = 95%`,
`platformAmount = platformFee` — and `paymentStatus` pending. -/
def checkoutOrderDoc (oid : ℕ) (onum : String) (details : List OrderLine)
    (subtotal : ℚ) : OrderDoc :=
  { id := oid, orderNumber := onum, paymentStatus := .pending,
    tickets := details,
    subtotal := subtotal,
    platformFee := subtotal * 0.05,
    processingFee := subtotal * 0.02,
    totalAmount := subtotal + subtotal * 0.02,
    hostAmount := subtotal * 0.95,
    platformAmount := subtotal * 0.05,
    checkoutRequestId := none, mpesaReference := none }

/-- Recomputation of order totals by the order schema pre-save hook
when the `tickets` array was modified: same formulas as the
controller, from the sum of the line totals. -/
def preSaveRecompute (o : OrderDoc) : OrderDoc :=
  let s := (o.tickets.map OrderLine.totalPrice).sum
  { o with subtotal := s,
           platformFee := s * 0.05,
           processingFee := s * 0.02,
           totalAmount := s + s * 0.02,
           hostAmount := s * 0.95,
           platformAmount := s * 0.05 }

/-- Embedding of `createCheckout` (the Redis 5-second mutex and the
event lookup are elided; the one event of the model is the target):
reject unless the event is published, run the availability checks,
create the pending order, and write the `reservation:<orderId>` key
with a 10-minute expiry. No tier counter is touched. -/
def createCheckout (s : SysState) (req : List (String × ℤ)) (now : ℤ)
    (newId : ℕ) (newNum : String) : Except CheckoutErr (SysState × OrderDoc) :=
  if s.eventDoc.status ≠ .published then
    .error .notPublished
  else
    match checkoutValidate s.eventDoc.tiers req with
    | .error e => .error e
    | .ok (subtotal, details) =>
      let order := checkoutOrderDoc newId newNum details subtotal
      .ok ({ s with orders := order :: s.orders,
                    reservations := (newId, now + 600000) :: s.reservations },
           order)

/-- Errors of `initiatePayment`. -/
inductive PayErr where
  | orderNotFound
  | alreadyStatus (st : PayStatus)
  | reservationExpired
  | inventory (e : InvErr)
  | stkFailed
deriving Repr, DecidableEq

/-- The reservation loop of `initiatePayment`: `reserveTickets` per
line item; each successful call is already saved when a later one
throws, so the error carries the partially updated event document. -/
def reserveLoop : EventDoc → List OrderLine → Except (EventDoc × InvErr) EventDoc
  | e, [] => .ok e
  | e, l :: rest =>
    match reserveTickets e l.tierName l.quantity with
    | .error err => .error (e, err)
    | .ok e' => reserveLoop e' rest

/-- The release loop run when payment initiation fails (and by the
failure branch of the payment callback): `releaseTickets` per line
item, a throw carrying the partial state. -/
def releaseLoop : EventDoc → List OrderLine → Except (EventDoc × InvErr) EventDoc
  | e, [] => .ok e
  | e, l :: rest =>
    match releaseTickets e l.tierName l.quantity with
    | .error err => .error (e, err)
    | .ok e' => releaseLoop e' rest

/-- Embedding of `initiatePayment`: find the order, require status
pending, require a live reservation key, run the reservation loop
(partial holds stay on a mid-loop throw), delete the reservation key,
then call the STK push (outcome `stkOk` of the external gateway): on
success store the `mpesa:checkout` entry and the checkout request id
on the order; on failure release the line items and throw. -/
def initiatePayment (s : SysState) (oid : ℕ) (now : ℤ) (stkOk : Bool)
    (cid : String) : Except PayErr String × SysState :=
  match findOrder s oid with
  | none => (.error .orderNotFound, s)
  | some o =>
    if o.paymentStatus ≠ .pending then
      (.error (.alreadyStatus o.paymentStatus), s)
    else
      match reservationGet s oid now with
      | none => (.error .reservationExpired, s)
      | some _ =>
        match reserveLoop s.eventDoc o.tickets with
        | .error (ePartial, err) =>
          (.error (.inventory err), { s with eventDoc := ePartial })
        | .ok e' =>
          let s1 := { s with eventDoc := e',
                             reservations := s.reservations.filter
                               (fun p => !(p.1 == oid)) }
          if stkOk then
            let s2 := { s1 with
              mpesaCheckout := (cid, { orderNumber := o.orderNumber,
                                       amount := o.totalAmount })
                :: s1.mpesaCheckout,
              orders := updateFirstOrder s1.orders (fun u => u.id == oid)
                (fun u => { u with checkoutRequestId := some cid }) }
            (.ok cid, s2)
          else
            match releaseLoop e' o.tickets with
            | .ok e'' => (.error .stkFailed, { s1 with eventDoc := e'' })
            | .error (ep, err) =>
              (.error (.inventory err), { s1 with eventDoc := ep })

/-- An inbound M-Pesa STK callback as the service reads it:
`ResultCode`, `CheckoutRequestID`, the paid amount from the metadata,
and the receipt reference. -/
structure Callback where
  resultCode : ℤ
  checkoutRequestId : String
  amountPaid : ℚ
  receipt : String
deriving Repr, DecidableEq

/-- Outcome of `validateCallback` as its caller sees it: the returned
failure object (`success: false`), the returned success object, or a
thrown exception reaching the route's catch block. -/
inductive CbOutcome where
  | resultFailure (resultCode : ℤ)
  | resultSuccess (orderNumber : String)
  | thrown
deriving Repr, DecidableEq

/-- Embedding of `paymentService.validateCallback`.

Failure codes (`ResultCode ≠ 0`): when the cached checkout entry
exists, mark the order failed, release its line items against the
event, delete the cache entry; with no cache entry do nothing. Either
way return the failure object.

Success codes: with no cache entry, throw. With an entry, throw when
the paid amount is below the expected amount — before any store
write. Otherwise mark the order completed with the receipt, enqueue
the ticket-generation job, delete the cache entry and return the
success object. A missing order throws with no other effect. -/
def validateCallback (s : SysState) (cb : Callback) : CbOutcome × SysState :=
  if cb.resultCode ≠ 0 then
    match mpesaGet s cb.checkoutRequestId with
    | none => (.resultFailure cb.resultCode, s)
    | some entry =>
      let failedOrders := updateFirstOrder s.orders
        (fun o => o.orderNumber == entry.orderNumber)
        (fun o => { o with paymentStatus := .failed })
      let s1 := { s with orders := failedOrders }
      match findOrderByNumber s1 entry.orderNumber with
      | none => (.resultFailure cb.resultCode, mpesaDel s1 cb.checkoutRequestId)
      | some o =>
        match releaseLoop s1.eventDoc o.tickets with
        | .error (ep, _) => (.thrown, { s1 with eventDoc := ep })
        | .ok e' =>
          (.resultFailure cb.resultCode,
           mpesaDel { s1 with eventDoc := e' } cb.checkoutRequestId)
  else
    match mpesaGet s cb.checkoutRequestId with
    | none => (.thrown, s)
    | some entry =>
      if cb.amountPaid < entry.amount then
        (.thrown, s)
      else
        match findOrderByNumber s entry.orderNumber with
        | none => (.thrown, s)
        | some o =>
          let doneOrders := updateFirstOrder s.orders
            (fun u => u.orderNumber == entry.orderNumber)
            (fun u => { u with
                        paymentStatus := .completed,
                        mpesaReference := some cb.receipt,
                        checkoutRequestId := some cb.checkoutRequestId })
          let s1 := { s with orders := doneOrders }
          let s2 := { s1 with ticketJobs := entry.orderNumber :: s1.ticketJobs }
          (.resultSuccess o.orderNumber, mpesaDel s2 cb.checkoutRequestId)

/-- Body the callback route sends back, always with HTTP status 200. -/
structure RouteResp where
  resultCode : ℤ
  resultDesc : String
deriving Repr, DecidableEq

/-- Embedding of the `/callback` route: success objects acknowledge
with `ResultCode 0`; failure objects echo the provider code; a thrown
exception is answered with `ResultCode 1` and the error description. -/
def callbackRoute (s : SysState) (cb : Callback) : RouteResp × SysState :=
  match validateCallback s cb with
  | (.resultSuccess _, s') => ({ resultCode := 0, resultDesc := "Success" }, s')
  | (.resultFailure rc, s') => ({ resultCode := rc, resultDesc := "failed" }, s')
  | (.thrown, s') =>
    ({ resultCode := 1, resultDesc := "Error processing callback" }, s')

/-- An empty base state holding the sample event. -/
def baseState : SysState :=
  { eventDoc := sampleEvent, orders := [], reservations := [],
    mpesaCheckout := [], ticketJobs := [] }

/-- The state produced by
`createCheckout baseState [(VIP, 2)] 0 1 ORD-1`. -/
def afterCheckout : SysState :=
  match createCheckout baseState [("VIP", 2)] 0 1 "ORD-1" with
  | .ok (s, _) => s
  | .error _ => baseState

/-- The order produced by
`createCheckout baseState [(VIP, 2)] 0 1 ORD-1`. -/
def afterOrder : OrderDoc :=
  match createCheckout baseState [("VIP", 2)] 0 1 "ORD-1" with
  | .ok (_, o) => o
  | .error _ => checkoutOrderDoc 0 "" [] 0

/-- C4 (counterexample to the claim as stated): a checkout whose
reservation reaches its 10-minute expiry unresolved. The lazy read
past the expiry (`initiatePayment` at 600000 ms) rejects with
reservation-expired and returns the state unchanged: the order stays
`pending` — it never becomes `failed` — and the tier counters never
move: nothing was held at checkout, so nothing is returned, and no
sweep exists to update the order. -/
theorem hold_expiry_cex :
    (createCheckout baseState [("VIP", 2)] 0 1 "ORD-1").isOk = true
    ∧ afterCheckout.reservations = [(1, 600000)]
    ∧ initiatePayment afterCheckout 1 600000 true "CRQ"
      = (.error .reservationExpired, afterCheckout)
    ∧ (findOrder afterCheckout 1).map OrderDoc.paymentStatus
      = some PayStatus.pending
    ∧ afterCheckout.eventDoc = sampleEvent := by
  exact ⟨rfl, rfl, rfl, rfl, rfl⟩

/-- C4 (amended): a reservation past its expiry simply lapses. The
only code that reads a hold past its expiry is `initiatePayment`,
which rejects with reservation-expired and changes nothing: the
order keeps its pending status and the tier counters are untouched
(no inventory was held by the reservation). -/
theorem expired_reservation_rejected (s : SysState) (oid : ℕ)
    (o : OrderDoc) (now : ℤ) (stkOk : Bool) (cid : String)
    (hfind : findOrder s oid = some o) (hpend : o.paymentStatus = .pending)
    (hres : reservationGet s oid now = none) :
    initiatePayment s oid now stkOk cid = (.error .reservationExpired, s) := by
  unfold initiatePayment
  rw [hfind]
  simp only
  rw [if_neg (by simp [hpend]), hres]

/-- Witness for `expired_reservation_rejected` at the concrete
expired checkout. -/
theorem expired_reservation_rejected_witness :
    initiatePayment afterCheckout 1 600000 true "CRQ"
      = (.error .reservationExpired, afterCheckout) :=
  expired_reservation_rejected afterCheckout 1 afterOrder 600000 true "CRQ"
    rfl rfl rfl

/-- An order with two line items: 2 seats of tier A and 1 seat of
tier B. -/
def twoLineOrder : OrderDoc :=
  checkoutOrderDoc 2 "ORD-2"
    [{ tierName := "A", quantity := 2, unitPrice := 100, totalPrice := 200 },
     { tierName := "B", quantity := 1, unitPrice := 200, totalPrice := 200 }]
    400

/-- A state whose event has tier A with 5 seats free and tier B sold
out, holding `twoLineOrder` with a live reservation key. -/
def twoTierState : SysState :=
  { eventDoc :=
      { tiers :=
          [{ name := "A", price := 100, quantityAvailable := 5,
             quantitySold := 0 },
           { name := "B", price := 200, quantityAvailable := 5,
             quantitySold := 5 }],
        ticketsSold := 5, eventDateTime := 1000000000,
        status := .published },
    orders := [twoLineOrder], reservations := [(2, 600000)],
    mpesaCheckout := [], ticketJobs := [] }

/-- C7: evaluation of `initiatePayment` at the failing input. The
reservation loop acquires the 2 seats of tier A, then fails on tier B
(0 available); the error propagates with no rollback: tier A keeps
`quantitySold = 2` (it was 0 before the call) and the reservation key
is still present, so a retry would reserve tier A again. -/
theorem partial_hold_leak :
    (initiatePayment twoTierState 2 0 true "CRQ2").1
      = .error (.inventory (.insufficient 0))
    ∧ twoTierState.eventDoc.tiers.map Tier.quantitySold = [0, 5]
    ∧ (initiatePayment twoTierState 2 0 true "CRQ2").2.eventDoc.tiers.map
        Tier.quantitySold = [2, 5]
    ∧ (initiatePayment twoTierState 2 0 true "CRQ2").2.reservations
      = [(2, 600000)] := by
  exact ⟨rfl, rfl, rfl, rfl⟩

/-- An event with 2 of 10 VIP seats reserved (sold counter 7 of 10
with base 5), awaiting a payment callback. -/
def reservedEvent : EventDoc :=
  { tiers := [{ name := "VIP", price := 100, quantityAvailable := 10,
                quantitySold := 7 }],
    ticketsSold := 7, eventDateTime := 1000000000, status := .published }

/-- A state after `initiatePayment`: order ORD-1 pending, inventory
reserved, and a cached `mpesa:checkout` entry expecting 1000. -/
def paidPendingState : SysState :=
  { eventDoc := reservedEvent, orders := [afterOrder], reservations := [],
    mpesaCheckout := [("CRQ1", { orderNumber := "ORD-1", amount := 1000 })],
    ticketJobs := [] }

/-- A success callback paying the expected 1000. -/
def cbFull : Callback :=
  { resultCode := 0, checkoutRequestId := "CRQ1", amountPaid := 1000,
    receipt := "R1000" }

/-- A success callback short-paying 800 of the expected 1000. -/
def cbShort : Callback :=
  { resultCode := 0, checkoutRequestId := "CRQ1", amountPaid := 800,
    receipt := "R800" }

/-- C5 (counterexample to the claim as stated): a success callback
reporting 800 against an expected 1000 throws before any store write:
the state is returned unchanged, so the order is not completed, but
the hold is also not released — `quantitySold` stays 7 instead of
dropping back to 5 — and the route acknowledges with `ResultCode 1`,
not a failure resolution. -/
theorem short_payment_cex :
    validateCallback paidPendingState cbShort = (.thrown, paidPendingState)
    ∧ (callbackRoute paidPendingState cbShort).1
      = { resultCode := 1, resultDesc := "Error processing callback" }
    ∧ paidPendingState.eventDoc.tiers.map Tier.quantitySold = [7]
    ∧ (validateCallback paidPendingState cbShort).2.eventDoc.tiers.map
        Tier.quantitySold = [7]
    ∧ (findOrderByNumber (validateCallback paidPendingState cbShort).2
        "ORD-1").map OrderDoc.paymentStatus = some PayStatus.pending := by
  exact ⟨rfl, rfl, rfl, rfl, rfl⟩

/-- C5 (amended): a short-paid success notification throws inside
`validateCallback` before any store write: the order is not marked
completed (nor failed), no ticket job is enqueued, and the held
inventory is not released — the state is unchanged and the route
acknowledges with `ResultCode 1`. -/
theorem short_payment_rejected (s : SysState) (cb : Callback)
    (entry : MpesaEntry) (h0 : cb.resultCode = 0)
    (hget : mpesaGet s cb.checkoutRequestId = some entry)
    (hshort : cb.amountPaid < entry.amount) :
    validateCallback s cb = (.thrown, s)
    ∧ callbackRoute s cb
      = ({ resultCode := 1, resultDesc := "Error processing callback" }, s) := by
  have hv : validateCallback s cb = (.thrown, s) := by
    unfold validateCallback
    rw [if_neg (by simp [h0]), hget]
    simp only
    rw [if_pos hshort]
  refine ⟨hv, ?_⟩
  unfold callbackRoute
  rw [hv]

/-- Witness for `short_payment_rejected` at the concrete short-paid
callback. -/
theorem short_payment_rejected_witness :
    validateCallback paidPendingState cbShort = (.thrown, paidPendingState)
    ∧ callbackRoute paidPendingState cbShort
      = ({ resultCode := 1, resultDesc := "Error processing callback" },
         paidPendingState) :=
  short_payment_rejected paidPendingState cbShort
    { orderNumber := "ORD-1", amount := 1000 } rfl rfl (by decide)

/-- The state after the first (successful) delivery of `cbFull`:
order completed, ticket job enqueued, cache entry deleted. -/
def afterFirstDelivery : SysState :=
  (callbackRoute paidPendingState cbFull).2

/-- C3 (counterexample to the claim as stated): the first delivery of
the success callback is acknowledged with `ResultCode 0`; its exact
replay, arriving after the order is completed and the cache entry is
gone, produces no side effects — same state, same ticket jobs, same
inventory — but is acknowledged with `ResultCode 1` and an error
description, not as a success. -/
theorem replay_after_completion_cex :
    (callbackRoute paidPendingState cbFull).1.resultCode = 0
    ∧ (findOrderByNumber afterFirstDelivery "ORD-1").map
        OrderDoc.paymentStatus = some PayStatus.completed
    ∧ afterFirstDelivery.ticketJobs = ["ORD-1"]
    ∧ (callbackRoute afterFirstDelivery cbFull).1
      = { resultCode := 1, resultDesc := "Error processing callback" }
    ∧ (callbackRoute afterFirstDelivery cbFull).2 = afterFirstDelivery := by
  exact ⟨rfl, rfl, rfl, rfl, rfl⟩

/-- C3 (amended): redelivering a success notification whose checkout
request id is no longer cached — the case after the order was
completed, or when no pending order ever matched — takes no further
action: the state is returned unchanged, so no ticket job is enqueued
and no inventory counter moves; but it is answered with HTTP 200 body
`ResultCode 1` (the thrown-error acknowledgement), not as a no-op
success. -/
theorem replay_after_completion_noop (s : SysState) (cb : Callback)
    (h0 : cb.resultCode = 0)
    (hnone : mpesaGet s cb.checkoutRequestId = none) :
    validateCallback s cb = (.thrown, s)
    ∧ callbackRoute s cb
      = ({ resultCode := 1, resultDesc := "Error processing callback" }, s) := by
  have hv : validateCallback s cb = (.thrown, s) := by
    unfold validateCallback
    rw [if_neg (by simp [h0]), hnone]
  refine ⟨hv, ?_⟩
  unfold callbackRoute
  rw [hv]

/-- Witness for `replay_after_completion_noop` at the concrete
replayed callback. -/
theorem replay_after_completion_noop_witness :
    validateCallback afterFirstDelivery cbFull = (.thrown, afterFirstDelivery)
    ∧ callbackRoute afterFirstDelivery cbFull
      = ({ resultCode := 1, resultDesc := "Error processing callback" },
         afterFirstDelivery) :=
  replay_after_completion_noop afterFirstDelivery cbFull rfl rfl

/-- C9: the buyer-charged `totalAmount` is the subtotal plus the 2%
processing fee only; the 5% platform fee is not added to it but
deducted from the host share: `hostAmount = 0.95 · subtotal`,
`platformAmount = 0.05 · subtotal`, and the two add back up to the
subtotal. Both the checkout controller and the order pre-save hook
compute these formulas. -/
theorem fee_split (oid : ℕ) (onum : String) (det : List OrderLine)
    (sub : ℚ) (o : OrderDoc) :
    (checkoutOrderDoc oid onum det sub).totalAmount
      = (checkoutOrderDoc oid onum det sub).subtotal
        + (checkoutOrderDoc oid onum det sub).processingFee
    ∧ (checkoutOrderDoc oid onum det sub).processingFee = 0.02 * sub
    ∧ (checkoutOrderDoc oid onum det sub).hostAmount = 0.95 * sub
    ∧ (checkoutOrderDoc oid onum det sub).platformAmount = 0.05 * sub
    ∧ (checkoutOrderDoc oid onum det sub).platformAmount
      = (checkoutOrderDoc oid onum det sub).platformFee
    ∧ (checkoutOrderDoc oid onum det sub).hostAmount
        + (checkoutOrderDoc oid onum det sub).platformAmount = sub
    ∧ (preSaveRecompute o).totalAmount
      = (preSaveRecompute o).subtotal + (preSaveRecompute o).processingFee
    ∧ (preSaveRecompute o).hostAmount + (preSaveRecompute o).platformAmount
      = (preSaveRecompute o).subtotal := by
  refine ⟨rfl, by unfold checkoutOrderDoc; ring, by unfold checkoutOrderDoc; ring,
          by unfold checkoutOrderDoc; ring, rfl, ?_, rfl, ?_⟩
  · unfold checkoutOrderDoc
    simp only
    ring_nf
  · unfold preSaveRecompute
    simp only
    ring_nf

/-- One payout record: an id, the event it pays out, and its status. -/
structure PayoutRec where
  pid : ℕ
  eventId : ℕ
  status : PayoutStatus
deriving Repr, DecidableEq

/-- The guard query of the payout worker,
`Payout.findOne({ eventId, status: completed })`: true only when a
COMPLETED payout for the event already exists. -/
def hasCompletedPayout (ps : List PayoutRec) (eid : ℕ) : Bool :=
  ps.any (fun p => p.eventId == eid && p.status == PayoutStatus.completed)

/-- First phase of a payout job run (aggregation elided to its
relevant effect): throw if the guard query finds a completed payout,
otherwise create a new payout record in `processing`. -/
def payoutCheckAndCreate (ps : List PayoutRec) (eid pid : ℕ) :
    Except Unit (List PayoutRec) :=
  if hasCompletedPayout ps eid then
    .error ()
  else
    .ok ({ pid := pid, eventId := eid, status := .processing } :: ps)

/-- Second phase of a payout job run: after the simulated bank
transfer, save the job's own payout record with status `completed`. -/
def payoutFinalize (ps : List PayoutRec) (pid : ℕ) : List PayoutRec :=
  ps.map (fun p => if p.pid == pid then { p with status := .completed } else p)

/-- Payout list after job A created its record for event 9. -/
def payoutsA : List PayoutRec :=
  [{ pid := 1, eventId := 9, status := .processing }]

/-- Payout list after job B also created a record for event 9. -/
def payoutsAB : List PayoutRec :=
  [{ pid := 2, eventId := 9, status := .processing },
   { pid := 1, eventId := 9, status := .processing }]

/-- C6: evaluation of the payout worker at the failing interleaving.
Job A passes the guard and creates payout 1 (`processing`); job B,
fired for the same event before A finalizes, also passes the guard —
it only excludes COMPLETED payouts — and creates payout 2; both then
finalize: two payout records exist for event 9, both completed. Only
after a payout is completed does a later sequential firing throw. -/
theorem double_payout_interleaving :
    payoutCheckAndCreate [] 9 1 = .ok payoutsA
    ∧ payoutCheckAndCreate payoutsA 9 2 = .ok payoutsAB
    ∧ (payoutFinalize (payoutFinalize payoutsAB 1) 2).countP
        (fun p => p.eventId == 9) = 2
    ∧ (payoutFinalize (payoutFinalize payoutsAB 1) 2).countP
        (fun p => p.eventId == 9 && p.status == PayoutStatus.completed) = 2
    ∧ payoutCheckAndCreate (payoutFinalize (payoutFinalize payoutsAB 1) 2) 9 3
      = .error () := by
  exact ⟨rfl, rfl, rfl, rfl, rfl⟩

lemma initiatePayment_ok_reserveLoop (s : SysState) (oid : ℕ) (o : OrderDoc)
    (now : ℤ) (cid : String) (res : Except PayErr String) (s2 : SysState)
    (hfind : findOrder s oid = some o)
    (hip : initiatePayment s oid now true cid = (res, s2))
    (hok : res = .ok cid) :
    reserveLoop s.eventDoc o.tickets = .ok s2.eventDoc := by
  subst hok
  unfold initiatePayment at hip
  rw [hfind] at hip
  simp only at hip
  by_cases hp : o.paymentStatus ≠ .pending
  · rw [if_pos hp] at hip
    exact absurd (congrArg Prod.fst hip) (by simp)
  · rw [if_neg hp] at hip
    cases hres : reservationGet s oid now with
    | none =>
      rw [hres] at hip
      exact absurd (congrArg Prod.fst hip) (by simp)
    | some exp =>
      rw [hres] at hip
      simp only at hip
      cases hrl : reserveLoop s.eventDoc o.tickets with
      | error pe =>
        obtain ⟨pe1, pe2⟩ := pe
        rw [hrl] at hip
        simp only at hip
        exact absurd (congrArg Prod.fst hip) (by simp)
      | ok e2 =>
        rw [hrl] at hip
        simp only at hip
        rw [if_pos trivial] at hip
        have h2 := congrArg Prod.snd hip
        simp only at h2
        rw [← h2]

/-- C10: `createCheckout` never touches tier inventory. Whenever it
returns, the event document — tier counters and `ticketsSold` — is
exactly the input one; the order is created pending, with a
reservation key expiring 10 minutes after `now`; and when
`initiatePayment` later commits for this order, the resulting event
document is the one produced by running the reservation loop on the
unchanged inventory — the counters move there and only there. -/
theorem checkout_frame (s : SysState) (req : List (String × ℤ)) (now : ℤ)
    (newId : ℕ) (newNum : String) (s' : SysState) (ord : OrderDoc)
    (h : createCheckout s req now newId newNum = .ok (s', ord)) :
    s'.eventDoc = s.eventDoc
    ∧ s'.ticketJobs = s.ticketJobs
    ∧ ord.paymentStatus = .pending
    ∧ s'.reservations = (newId, now + 600000) :: s.reservations
    ∧ (∀ now2 cid res s2,
        initiatePayment s' newId now2 true cid = (res, s2) →
        res = .ok cid →
        reserveLoop s.eventDoc ord.tickets = .ok s2.eventDoc) := by
  unfold createCheckout at h
  by_cases hpub : s.eventDoc.status ≠ .published
  · rw [if_pos hpub] at h
    exact absurd h (by simp)
  · rw [if_neg hpub] at h
    cases hval : checkoutValidate s.eventDoc.tiers req with
    | error e =>
      rw [hval] at h
      exact absurd h (by simp)
    | ok p =>
      obtain ⟨sub, det⟩ := p
      rw [hval] at h
      simp only at h
      injection h with h
      rw [Prod.mk.injEq] at h
      obtain ⟨hs, ho⟩ := h
      subst hs
      subst ho
      refine ⟨rfl, rfl, rfl, rfl, ?_⟩
      intro now2 cid res s2 hip hok
      exact initiatePayment_ok_reserveLoop
        { s with orders := checkoutOrderDoc newId newNum det sub :: s.orders,
                 reservations := (newId, now + 600000) :: s.reservations }
        newId (checkoutOrderDoc newId newNum det sub) now2 cid res s2
        (by simp [findOrder, List.find?, checkoutOrderDoc]) hip hok

/-- Witness for `checkout_frame` at the concrete checkout followed by
a committing `initiatePayment`. -/
theorem checkout_frame_witness :
    afterCheckout.eventDoc = baseState.eventDoc
    ∧ afterCheckout.ticketJobs = baseState.ticketJobs
    ∧ afterOrder.paymentStatus = .pending
    ∧ afterCheckout.reservations = (1, 0 + 600000) :: baseState.reservations
    ∧ reserveLoop baseState.eventDoc afterOrder.tickets
      = .ok (initiatePayment afterCheckout 1 0 true "CRQ").2.eventDoc := by
  have T := checkout_frame baseState [("VIP", 2)] 0 1 "ORD-1"
    afterCheckout afterOrder rfl
  refine ⟨T.1, T.2.1, T.2.2.1, T.2.2.2.1, ?_⟩
  exact T.2.2.2.2 0 "CRQ" (initiatePayment afterCheckout 1 0 true "CRQ").1
    (initiatePayment afterCheckout 1 0 true "CRQ").2 rfl rfl
